import Mathlib

/-!
Shallow embedding of the quiz-session / progress-tracking core of `src/app.py`
(a Streamlit question-bank application).  Python dicts keyed by category name
are modelled as association lists (`PerfMap`), Python sets of question ids as
`Finset String`, and the ambient effects (current time, random draws, the
password hash, the bytes on disk) as explicit parameters.
-/

namespace YohadMD

/-- One entry of `performance_by_system` / `performance_by_subject`:
the Python dict `{"correct": int, "total": int}`. -/
structure Perf where
  correct : Nat
  total : Nat
deriving DecidableEq

/-- A Python dict mapping a category name to a `Perf` record, in insertion
order (Python dicts preserve insertion order; a fresh key is appended). -/
abbrev PerfMap := List (String × Perf)

/-- Dict lookup `m[k]` (as an `Option`). -/
def lookupPerf : PerfMap → String → Option Perf
  | [], _ => none
  | (k', v) :: rest, k => if k' = k then some v else lookupPerf rest k

/-- `if k not in m: m[k] = {"correct": 0, "total": 0}` (app.py lines 344-347). -/
def ensureKey (m : PerfMap) (k : String) : PerfMap :=
  if (lookupPerf m k).isSome then m else m ++ [(k, ⟨0, 0⟩)]

/-- `m[k]["total"] += 1` (app.py lines 350-351). -/
def bumpTotal (m : PerfMap) (k : String) : PerfMap :=
  m.map fun kv => if kv.1 = k then (kv.1, { kv.2 with total := kv.2.total + 1 }) else kv

/-- `m[k]["correct"] += 1` (app.py lines 354-355). -/
def bumpCorrect (m : PerfMap) (k : String) : PerfMap :=
  m.map fun kv => if kv.1 = k then (kv.1, { kv.2 with correct := kv.2.correct + 1 }) else kv

/-- A question record.  `id` and `question` are accessed directly in app.py
(`q["id"]`, `q["question"]`); `options`, `answer`, `system` and `subject` are
read with `q.get(..., default)`, so they are `Option`s here and the defaults
are applied at the access sites, exactly as in the source. -/
structure Question where
  id : String
  question : String
  options : List String
  answer : Option String
  system : Option String
  subject : Option String
deriving DecidableEq

/-- `q.get("system", "General")`. -/
def qSystem (q : Question) : String := q.system.getD "General"

/-- `q.get("subject", "General")`. -/
def qSubject (q : Question) : String := q.subject.getD "General"

/-- `q.get("answer", "A")` (app.py line 310). -/
def answerLetter (q : Question) : String := q.answer.getD "A"

/-- `chr(65 + i)` (app.py line 314): the letter of the i-th option button. -/
def optionLetter (i : Nat) : String := String.singleton (Char.ofNat (65 + i))

/-- The per-user progress record held in `st.session_state.user_progress`:
four sets of question ids plus the two live-incremented category maps. -/
structure UserProgress where
  questions_attempted : Finset String
  correct_questions : Finset String
  incorrect_questions : Finset String
  marked_questions : Finset String
  performance_by_system : PerfMap
  performance_by_subject : PerfMap
deriving DecidableEq

/-- The empty progress record (app.py lines 112-119 and 84-91). -/
def emptyProgress : UserProgress :=
  { questions_attempted := ∅
    correct_questions := ∅
    incorrect_questions := ∅
    marked_questions := ∅
    performance_by_system := []
    performance_by_subject := [] }

/-- The progress mutation performed by the option-button handler
(app.py lines 326-355), given the submitted letter. -/
def answerProgress (p : UserProgress) (q : Question) (letter : String) : UserProgress :=
  let p1 := { p with questions_attempted := insert q.id p.questions_attempted }
  let p2 :=
    if letter = answerLetter q then
      { p1 with
        correct_questions := insert q.id p1.correct_questions
        incorrect_questions := p1.incorrect_questions.erase q.id }
    else
      { p1 with
        incorrect_questions := insert q.id p1.incorrect_questions
        correct_questions := p1.correct_questions.erase q.id }
  let sys := qSystem q
  let subj := qSubject q
  let pbs := bumpTotal (ensureKey p2.performance_by_system sys) sys
  let pbj := bumpTotal (ensureKey p2.performance_by_subject subj) subj
  let pbs := if letter = answerLetter q then bumpCorrect pbs sys else pbs
  let pbj := if letter = answerLetter q then bumpCorrect pbj subj else pbj
  { p2 with performance_by_system := pbs, performance_by_subject := pbj }

/-- The transient quiz-session state `st.session_state.quiz_state`
(app.py lines 131-139).  Time stamps are abstract `Nat`s. -/
structure QuizState where
  idx : Nat
  score : Nat
  answered : Bool
  selected : Option String
  marked : Finset String
  quiz_start_time : Option Nat
deriving DecidableEq

/-- The fresh quiz state installed when a quiz starts (app.py lines 249-256). -/
def initQuizState (now : Nat) : QuizState :=
  { idx := 0, score := 0, answered := false, selected := none
    marked := ∅, quiz_start_time := some now }

/-- Clicking option button `i` on question `q` (app.py lines 313-355).
The button only exists for `i < len(options)` and is rendered with
`disabled=quiz_state["answered"]`, so a click outside those bounds is a
no-op.  A real click records the letter, marks the question answered,
bumps the session score on a correct answer and applies `answerProgress`. -/
def clickOption (qz : QuizState) (p : UserProgress) (q : Question) (i : Nat) :
    QuizState × UserProgress :=
  if qz.answered = true ∨ q.options.length ≤ i then (qz, p)
  else
    let letter := optionLetter i
    ({ qz with
        selected := some letter
        answered := true
        score := if letter = answerLetter q then qz.score + 1 else qz.score },
      answerProgress p q letter)

/-- A sequence of raw answer submissions applied to a progress record. -/
def runAnswers (p : UserProgress) (evs : List (Question × String)) : UserProgress :=
  evs.foldl (fun acc e => answerProgress acc e.1 e.2) p

/-- One user-visible session operation on the quiz page (app.py lines 276-411):
clicking an option button, Next, Previous, the jump selectbox, or the
mark-for-review toggle. -/
inductive QuizOp where
  | click (i : Nat)
  | next
  | prev
  | jump (n : Nat)
  | toggleMark
deriving DecidableEq

/-- One step of the quiz page for the current question list `qs`.  When
`idx >= len(qs)` the page shows the results instead (app.py lines 272-274),
so no session operation applies.  `next` requires `answered` (the button is
disabled otherwise, lines 384-391), `prev` requires `idx > 0` (line 377),
`jump n` requires a different in-range target (lines 400-411); all three
reset `answered` and `selected`. -/
def stepOp (qs : List Question) (s : QuizState × UserProgress) (op : QuizOp) :
    QuizState × UserProgress :=
  match qs.get? s.1.idx with
  | none => s
  | some q =>
    match op with
    | .click i => clickOption s.1 s.2 q i
    | .next =>
        if s.1.answered = true then
          ({ s.1 with idx := s.1.idx + 1, answered := false, selected := none }, s.2)
        else s
    | .prev =>
        if 0 < s.1.idx then
          ({ s.1 with idx := s.1.idx - 1, answered := false, selected := none }, s.2)
        else s
    | .jump n =>
        if n < qs.length ∧ n ≠ s.1.idx then
          ({ s.1 with idx := n, answered := false, selected := none }, s.2)
        else s
    | .toggleMark =>
        if q.id ∈ s.1.marked then ({ s.1 with marked := s.1.marked.erase q.id }, s.2)
        else ({ s.1 with marked := insert q.id s.1.marked }, s.2)

/-- Run a sequence of session operations. -/
def runOps (qs : List Question) (s : QuizState × UserProgress) (ops : List QuizOp) :
    QuizState × UserProgress :=
  ops.foldl (stepOp qs) s

/-! ### Question selection (app.py `show_home`, lines 206-258) -/

/-- `if selected_systems: filtered = [q for q in filtered if q.get("system","General") in selected_systems]`
(app.py lines 211-212). -/
def filterBySystems (sel : List String) (l : List Question) : List Question :=
  if sel = [] then l else l.filter fun q => decide (qSystem q ∈ sel)

/-- Same for subjects (app.py lines 215-216). -/
def filterBySubjects (sel : List String) (l : List Question) : List Question :=
  if sel = [] then l else l.filter fun q => decide (qSubject q ∈ sel)

/-- The `question_filter` step (app.py lines 219-227). -/
def applyQuestionFilter (fopt : String) (prog : UserProgress) (l : List Question) :
    List Question :=
  if fopt = "marked" then l.filter fun q => decide (q.id ∈ prog.marked_questions)
  else if fopt = "incorrect" then l.filter fun q => decide (q.id ∈ prog.incorrect_questions)
  else if fopt = "unused" then l.filter fun q => decide (q.id ∉ prog.questions_attempted)
  else l

/-- The full filtering pipeline: system filter, then subject filter, then the
question filter (app.py lines 208-227). -/
def filterQuestions (questions : List Question) (systems subjects : List String)
    (fopt : String) (prog : UserProgress) : List Question :=
  applyQuestionFilter fopt prog (filterBySubjects subjects (filterBySystems systems questions))

/-- `random.sample(l, k)`: draws `k` elements without replacement.  The
randomness is made explicit as a stream of draws; each step removes the
element at position `d % len` of what remains, so every possible
without-replacement selection corresponds to some draw stream and every
draw stream yields a valid one. -/
def sampleAux : Nat → List Nat → List Question → List Question
  | 0, _, _ => []
  | _ + 1, _, [] => []
  | k + 1, ds, x :: xs =>
      let i := ds.headD 0 % (x :: xs).length
      (x :: xs).getD i x :: sampleAux k ds.tail ((x :: xs).eraseIdx i)

/-- The selection step of the Start Quiz handler: filter, then
`if len(filtered) > num_q: filtered = random.sample(filtered, num_q)`
(app.py lines 208-232). -/
def selectQuestions (draws : List Nat) (questions : List Question) (numQ : Nat)
    (systems subjects : List String) (fopt : String) (prog : UserProgress) :
    List Question :=
  if numQ < (filterQuestions questions systems subjects fopt prog).length then
    sampleAux numQ draws (filterQuestions questions systems subjects fopt prog)
  else filterQuestions questions systems subjects fopt prog

/-- The quiz configuration `st.session_state.quiz_config` (app.py 121-129). -/
structure QuizConfig where
  num_questions : Nat
  selected_systems : List String
  selected_subjects : List String
  question_filter : String
  current_quiz : List Question
  quiz_started : Bool
deriving DecidableEq

/-- Outcome of pressing Start Quiz. -/
inductive StartResult where
  | noMatching
  | started
deriving DecidableEq

/-- The Start Quiz button handler (app.py lines 206-258): select questions;
if none matched, show the error and leave `quiz_config` and `quiz_state`
untouched (the handler returns before assigning them, lines 234-236);
otherwise install the new configuration and a fresh quiz state. -/
def startQuiz (draws : List Nat) (questions : List Question) (numQ : Nat)
    (systems subjects : List String) (fopt : String) (prog : UserProgress)
    (cfg : QuizConfig) (qz : QuizState) (now : Nat) :
    QuizConfig × QuizState × StartResult :=
  if selectQuestions draws questions numQ systems subjects fopt prog = [] then
    (cfg, qz, .noMatching)
  else
    ({ num_questions := numQ
       selected_systems := systems
       selected_subjects := subjects
       question_filter := fopt
       current_quiz := selectQuestions draws questions numQ systems subjects fopt prog
       quiz_started := true },
      initQuizState now, .started)

/-! ### Results page (app.py `show_results`, lines 414-418) -/

/-- What the results page reports. -/
structure QuizResults where
  score : Nat
  total : Nat
  percentage : ℚ
deriving DecidableEq

/-- `score`, `total = len(quiz_questions)` and
`percentage = (score / total * 100) if total > 0 else 0`
(app.py lines 414-418).  Python's float arithmetic is modelled exactly
over `ℚ`. -/
def showResults (qs : List Question) (qz : QuizState) : QuizResults :=
  { score := qz.score
    total := qs.length
    percentage := if 0 < qs.length then (qz.score : ℚ) / (qs.length : ℚ) * 100 else 0 }

/-! ### Persistence (app.py lines 19-91) -/

/-- The serialized progress written into `users.json`
(app.py lines 61-69): the four sets become lists, the two maps are stored
as-is.  `list(set)` enumerates a Python set in unspecified order; we fix the
canonical sorted enumeration. -/
structure StoredProgress where
  questions_attempted : List String
  correct_questions : List String
  incorrect_questions : List String
  marked_questions : List String
  performance_by_system : PerfMap
  performance_by_subject : PerfMap
  last_saved : Option String
deriving DecidableEq

/-- One record of the `users.json` mapping. -/
structure UserRecord where
  password_hash : String
  created_at : String
  progress : StoredProgress
deriving DecidableEq

/-- The `users.json` store, a dict keyed by username in insertion order. -/
abbrev UsersStore := List (String × UserRecord)

/-- Dict lookup `users[username]`. -/
def lookupUser : UsersStore → String → Option UserRecord
  | [], _ => none
  | (k', v) :: rest, k => if k' = k then some v else lookupUser rest k

/-- Dict update `users[username] = f users[username]` on an existing key. -/
def updateUser (users : UsersStore) (username : String) (f : UserRecord → UserRecord) :
    UsersStore :=
  users.map fun kv => if kv.1 = username then (kv.1, f kv.2) else kv

/-- The dict literal written by `save_user_progress` (app.py lines 61-69). -/
def serializeProgress (p : UserProgress) (now : String) : StoredProgress :=
  { questions_attempted := p.questions_attempted.sort (· ≤ ·)
    correct_questions := p.correct_questions.sort (· ≤ ·)
    incorrect_questions := p.incorrect_questions.sort (· ≤ ·)
    marked_questions := p.marked_questions.sort (· ≤ ·)
    performance_by_system := p.performance_by_system
    performance_by_subject := p.performance_by_subject
    last_saved := some now }

/-- `save_user_progress(username)` (app.py lines 57-70): reload the store,
and if the username exists replace its `progress` with the serialized
in-memory progress, then write the whole store back.  The durable store is
the explicit `users` argument; the returned store is what gets written. -/
def save_user_progress (users : UsersStore) (username : String) (p : UserProgress)
    (now : String) : UsersStore :=
  if (lookupUser users username).isSome then
    updateUser users username fun r => { r with progress := serializeProgress p now }
  else users

/-- `load_users()` (app.py lines 19-24): parse `users.json`; on any failure
(missing file, unreadable, invalid JSON — all modelled as `none`) return the
empty dict. -/
def load_users (raw : Option UsersStore) : UsersStore :=
  match raw with
  | some users => users
  | none => []

/-- `load_user_progress(username)` (app.py lines 72-91): look the user up in
the loaded store; rebuild the four sets from the stored lists, or return the
all-empty default record when the user (or the store) is missing. -/
def load_user_progress (raw : Option UsersStore) (username : String) : UserProgress :=
  match lookupUser (load_users raw) username with
  | some r =>
      { questions_attempted := r.progress.questions_attempted.toFinset
        correct_questions := r.progress.correct_questions.toFinset
        incorrect_questions := r.progress.incorrect_questions.toFinset
        marked_questions := r.progress.marked_questions.toFinset
        performance_by_system := r.progress.performance_by_system
        performance_by_subject := r.progress.performance_by_subject }
  | none => emptyProgress

/-- The empty stored progress created for a new account (app.py 37-44). -/
def emptyStoredProgress : StoredProgress :=
  { questions_attempted := []
    correct_questions := []
    incorrect_questions := []
    marked_questions := []
    performance_by_system := []
    performance_by_subject := []
    last_saved := none }

/-- `create_user(username, password)` (app.py lines 30-47).  The password
hash and the creation timestamp are ambient effects passed as parameters.
Returns the store after the call (unchanged when the name is taken, since
`save_users` is only reached on success) plus the `(ok, message)` pair. -/
def create_user (hash : String → String) (now : String) (users : UsersStore)
    (username password : String) : UsersStore × Bool × String :=
  if (lookupUser users username).isSome then
    (users, false, "Username already exists")
  else
    (users ++ [(username,
      { password_hash := hash password
        created_at := now
        progress := emptyStoredProgress })],
      true, "User created successfully")

/-- The Home button handler on the quiz page (app.py lines 283-286):
checkpoint progress, then leave the session (`quiz_started = False`). -/
def homeClick (users : UsersStore) (username : String) (p : UserProgress) (now : String)
    (cfg : QuizConfig) : UsersStore × QuizConfig :=
  (save_user_progress users username p now, { cfg with quiz_started := false })

/-- The End Quiz button handler (app.py lines 394-397): checkpoint progress,
then show the results page. -/
def endQuizClick (users : UsersStore) (username : String) (p : UserProgress) (now : String)
    (qs : List Question) (qz : QuizState) : UsersStore × QuizResults :=
  (save_user_progress users username p now, showResults qs qz)

/-! ### Concrete data used by witnesses and counterexamples -/

/-- A two-option question whose correct answer is "A". -/
def q1 : Question :=
  { id := "Q1", question := "stem", options := ["alpha", "beta"]
    answer := some "A", system := some "Cardiology", subject := some "Physiology" }

/-- A progress record in which `Q1` has already been answered correctly once
(sets and category counters all reflect that one correct attempt). -/
def p0 : UserProgress :=
  { questions_attempted := {"Q1"}
    correct_questions := {"Q1"}
    incorrect_questions := ∅
    marked_questions := ∅
    performance_by_system := [("Cardiology", ⟨1, 1⟩)]
    performance_by_subject := [("Physiology", ⟨1, 1⟩)] }

/-- A one-option question with id `A1`. -/
def qA : Question :=
  { id := "A1", question := "stem a", options := ["one"], answer := some "A"
    system := some "Sys", subject := some "Sub" }

/-- A one-option question with id `B1`. -/
def qB : Question :=
  { id := "B1", question := "stem b", options := ["one"], answer := some "A"
    system := some "Sys", subject := some "Sub" }

/-! ### Invariants of the progress record -/

/-- The §3/§8 progress invariant: `correct` and `incorrect` are mutually
exclusive (`correct ∩ incorrect = ∅`) subsets of `attempted`. -/
def progressInv (p : UserProgress) : Prop :=
  p.correct_questions ∩ p.incorrect_questions = ∅ ∧
  p.correct_questions ⊆ p.questions_attempted ∧
  p.incorrect_questions ⊆ p.questions_attempted

instance (p : UserProgress) : Decidable (progressInv p) := by
  unfold progressInv; infer_instance

theorem answerProgress_progressInv (p : UserProgress) (q : Question) (letter : String)
    (h : progressInv p) : progressInv (answerProgress p q letter) := by
  obtain ⟨hdisj, hc, hi⟩ := h
  rw [← Finset.disjoint_iff_inter_eq_empty] at hdisj
  by_cases hl : letter = answerLetter q <;>
    simp only [answerProgress, hl, if_true, if_false, progressInv,
      ← Finset.disjoint_iff_inter_eq_empty] <;> refine ⟨?_, ?_, ?_⟩
  · rw [Finset.disjoint_left]
    intro x hx hx'
    rcases Finset.mem_insert.mp hx with rfl | hx
    · exact Finset.not_mem_erase _ _ hx'
    · exact (Finset.disjoint_left.mp hdisj hx) (Finset.erase_subset _ _ hx')
  · exact Finset.insert_subset_insert _ hc
  · exact (Finset.erase_subset _ _).trans (hi.trans (Finset.subset_insert _ _))
  · rw [Finset.disjoint_left]
    intro x hx hx'
    rcases Finset.mem_insert.mp hx' with rfl | hx'
    · exact Finset.not_mem_erase _ _ hx
    · exact (Finset.disjoint_left.mp hdisj (Finset.erase_subset _ _ hx)) hx'
  · exact (Finset.erase_subset _ _).trans (hc.trans (Finset.subset_insert _ _))
  · exact Finset.insert_subset_insert _ hi

theorem runAnswers_progressInv (evs : List (Question × String)) (p : UserProgress)
    (h : progressInv p) : progressInv (runAnswers p evs) := by
  induction evs generalizing p with
  | nil => exact h
  | cons e evs ih => exact ih _ (answerProgress_progressInv p e.1 e.2 h)

/-- The §8 counter invariant for one category map. -/
def perfInv (m : PerfMap) : Prop := ∀ kv ∈ m, kv.2.correct ≤ kv.2.total

instance (m : PerfMap) : Decidable (perfInv m) := by
  unfold perfInv; infer_instance

theorem perfInv_ensureKey (m : PerfMap) (k : String) (h : perfInv m) :
    perfInv (ensureKey m k) := by
  unfold ensureKey
  split
  · exact h
  · intro kv hkv
    rcases List.mem_append.mp hkv with hkv | hkv
    · exact h kv hkv
    · simp only [List.mem_singleton] at hkv
      subst hkv
      exact Nat.le_refl 0

theorem perfInv_bumpTotal (m : PerfMap) (k : String) (h : perfInv m) :
    perfInv (bumpTotal m k) := by
  intro kv hkv
  simp only [bumpTotal, List.mem_map] at hkv
  obtain ⟨kv0, h0, rfl⟩ := hkv
  by_cases hk : kv0.1 = k <;> simp only [hk, if_true, if_false]
  · exact Nat.le_succ_of_le (h kv0 h0)
  · exact h kv0 h0

theorem perfInv_bumpCorrect_bumpTotal (m : PerfMap) (k : String) (h : perfInv m) :
    perfInv (bumpCorrect (bumpTotal m k) k) := by
  intro kv hkv
  simp only [bumpCorrect, bumpTotal, List.map_map, List.mem_map] at hkv
  obtain ⟨kv0, h0, rfl⟩ := hkv
  by_cases hk : kv0.1 = k <;>
    simp only [Function.comp, hk, if_true, if_false]
  · exact Nat.succ_le_succ (h kv0 h0)
  · exact h kv0 h0

theorem answerProgress_perfInv (p : UserProgress) (q : Question) (letter : String)
    (hs : perfInv p.performance_by_system) (hj : perfInv p.performance_by_subject) :
    perfInv (answerProgress p q letter).performance_by_system ∧
    perfInv (answerProgress p q letter).performance_by_subject := by
  by_cases hl : letter = answerLetter q <;>
    simp only [answerProgress, hl, if_true, if_false]
  · exact ⟨perfInv_bumpCorrect_bumpTotal _ _ (perfInv_ensureKey _ _ hs),
      perfInv_bumpCorrect_bumpTotal _ _ (perfInv_ensureKey _ _ hj)⟩
  · exact ⟨perfInv_bumpTotal _ _ (perfInv_ensureKey _ _ hs),
      perfInv_bumpTotal _ _ (perfInv_ensureKey _ _ hj)⟩

theorem runAnswers_perfInv (evs : List (Question × String)) (p : UserProgress)
    (hs : perfInv p.performance_by_system) (hj : perfInv p.performance_by_subject) :
    perfInv (runAnswers p evs).performance_by_system ∧
    perfInv (runAnswers p evs).performance_by_subject := by
  induction evs generalizing p with
  | nil => exact ⟨hs, hj⟩
  | cons e evs ih =>
      have h := answerProgress_perfInv p e.1 e.2 hs hj
      exact ih _ h.1 h.2

theorem lookupPerf_mem (m : PerfMap) (k : String) (e : Perf)
    (h : lookupPerf m k = some e) : (k, e) ∈ m := by
  induction m with
  | nil => simp [lookupPerf] at h
  | cons kv rest ih =>
      by_cases hk : kv.1 = k
      · simp only [lookupPerf, hk, if_true, Option.some.injEq] at h
        subst h
        rw [← hk]
        exact List.mem_cons_self kv rest
      · simp only [lookupPerf, hk, if_false] at h
        exact List.mem_cons_of_mem _ (ih h)

/-- Claim C2: for every reachable progress state the sets `correct_questions`
and `incorrect_questions` are disjoint and both are subsets of
`questions_attempted`; every single answer submission preserves this
invariant. -/
theorem progress_sets_invariant :
    (∀ evs : List (Question × String), progressInv (runAnswers emptyProgress evs)) ∧
    (∀ (p : UserProgress) (q : Question) (letter : String),
      progressInv p → progressInv (answerProgress p q letter)) :=
  ⟨fun evs => runAnswers_progressInv evs emptyProgress (by decide),
    answerProgress_progressInv⟩

/-- Witness for C2 at a concrete state and answer. -/
theorem progress_sets_invariant_witness :
    progressInv p0 ∧ progressInv (answerProgress p0 q1 "B") :=
  ⟨by decide, progress_sets_invariant.2 p0 q1 "B" (by decide)⟩

/-- Claim C3: after any sequence of answer submissions starting from the empty
progress record, every entry of `performance_by_system` and of
`performance_by_subject` satisfies `correct ≤ total`, and both counters are
non-negative (they are naturals in the model because the code only ever
adds to them). -/
theorem category_counters_sound (evs : List (Question × String)) (c : String) (e : Perf) :
    (lookupPerf (runAnswers emptyProgress evs).performance_by_system c = some e →
      e.correct ≤ e.total ∧ 0 ≤ e.correct ∧ 0 ≤ e.total) ∧
    (lookupPerf (runAnswers emptyProgress evs).performance_by_subject c = some e →
      e.correct ≤ e.total ∧ 0 ≤ e.correct ∧ 0 ≤ e.total) := by
  have h := runAnswers_perfInv evs emptyProgress (by decide) (by decide)
  constructor
  · intro hl
    exact ⟨h.1 (c, e) (lookupPerf_mem _ c e hl), Nat.zero_le _, Nat.zero_le _⟩
  · intro hl
    exact ⟨h.2 (c, e) (lookupPerf_mem _ c e hl), Nat.zero_le _, Nat.zero_le _⟩

/-- Witness for C3: one concrete answer sequence and category. -/
theorem category_counters_sound_witness :
    (1 : Nat) ≤ 1 ∧ 0 ≤ (1 : Nat) ∧ 0 ≤ (1 : Nat) :=
  (category_counters_sound [(qA, "A")] "Sys" ⟨1, 1⟩).1 (by decide)

/-! ### Re-answering a previously correct question (C1) -/

theorem ensureKey_of_isSome (m : PerfMap) (k : String) (h : (lookupPerf m k).isSome) :
    ensureKey m k = m := by
  simp [ensureKey, h]

theorem lookupPerf_bumpTotal (m : PerfMap) (k : String) :
    lookupPerf (bumpTotal m k) k =
      (lookupPerf m k).map fun e => { e with total := e.total + 1 } := by
  induction m with
  | nil => rfl
  | cons kv rest ih =>
      obtain ⟨k', v⟩ := kv
      show lookupPerf
          ((if k' = k then (k', { v with total := v.total + 1 }) else (k', v)) ::
            bumpTotal rest k) k =
        (lookupPerf ((k', v) :: rest) k).map fun e => { e with total := e.total + 1 }
      by_cases hk : k' = k
      · rw [if_pos hk]
        simp only [lookupPerf, if_pos hk, Option.map_some']
      · rw [if_neg hk]
        simp only [lookupPerf, if_neg hk]
        exact ih

/-- Claim C1 counterexample: `Q1` was answered correctly once (`p0`: sets and
counters reflect it), then is answered incorrectly (clicking option B in a
fresh session).  The claim's predicted post-state — membership migrated AND
the category `correct` counters decremented to 0 with `total` at 2 — is
false: the code leaves `correct` at 1 (it never decrements counters). -/
theorem reanswer_decrement_counterexample :
    ¬ (("Q1" ∉ (clickOption (initQuizState 5) p0 q1 1).2.correct_questions) ∧
       ("Q1" ∈ (clickOption (initQuizState 5) p0 q1 1).2.incorrect_questions) ∧
       lookupPerf (clickOption (initQuizState 5) p0 q1 1).2.performance_by_system
         "Cardiology" = some ⟨0, 2⟩ ∧
       lookupPerf (clickOption (initQuizState 5) p0 q1 1).2.performance_by_subject
         "Physiology" = some ⟨0, 2⟩) := by
  decide

/-- Claim C1 (amended): answering a previously-correct question incorrectly
removes it from `correct_questions`, adds it to `incorrect_questions`,
keeps it in `questions_attempted`, and increments the `total` counter of
its system and subject by exactly 1 — but the `correct` counters are left
unchanged (the handler never decrements a counter; it only skips the
increment). -/
theorem reanswer_incorrect_updates (p : UserProgress) (q : Question) (letter : String)
    (e f : Perf)
    (hl : letter ≠ answerLetter q)
    (_hmem : q.id ∈ p.correct_questions)
    (hes : lookupPerf p.performance_by_system (qSystem q) = some e)
    (hef : lookupPerf p.performance_by_subject (qSubject q) = some f) :
    q.id ∉ (answerProgress p q letter).correct_questions ∧
    q.id ∈ (answerProgress p q letter).incorrect_questions ∧
    q.id ∈ (answerProgress p q letter).questions_attempted ∧
    lookupPerf (answerProgress p q letter).performance_by_system (qSystem q) =
      some ⟨e.correct, e.total + 1⟩ ∧
    lookupPerf (answerProgress p q letter).performance_by_subject (qSubject q) =
      some ⟨f.correct, f.total + 1⟩ := by
  simp only [answerProgress, if_neg hl]
  refine ⟨Finset.not_mem_erase _ _, Finset.mem_insert_self _ _, Finset.mem_insert_self _ _,
    ?_, ?_⟩
  · rw [ensureKey_of_isSome _ _ (by rw [hes]; rfl), lookupPerf_bumpTotal, hes]
    rfl
  · rw [ensureKey_of_isSome _ _ (by rw [hef]; rfl), lookupPerf_bumpTotal, hef]
    rfl

/-- Witness for the amended C1 on the concrete `p0`/`q1` instance. -/
theorem reanswer_incorrect_updates_witness :
    "Q1" ∉ (answerProgress p0 q1 "B").correct_questions ∧
    "Q1" ∈ (answerProgress p0 q1 "B").incorrect_questions ∧
    lookupPerf (answerProgress p0 q1 "B").performance_by_system "Cardiology" =
      some ⟨1, 2⟩ ∧
    lookupPerf (answerProgress p0 q1 "B").performance_by_subject "Physiology" =
      some ⟨1, 2⟩ :=
  have h := reanswer_incorrect_updates p0 q1 "B" ⟨1, 1⟩ ⟨1, 1⟩ (by decide) (by decide)
    (by decide) (by decide)
  ⟨h.1, h.2.1, h.2.2.2.1, h.2.2.2.2⟩

/-! ### Double submission within a session (C6) -/

theorem clickOption_answered_noop (qz : QuizState) (p : UserProgress) (q : Question)
    (i : Nat) (h : qz.answered = true) : clickOption qz p q i = (qz, p) := by
  simp [clickOption, h]

/-- Claim C6 counterexample: in a two-question session, answering question `A1`
correctly, advancing, retreating, and answering `A1` again yields score 2
and a `total` counter of 2 although only one distinct question was ever
attempted — a single question contributes twice to the score and to the
category counters, because navigation resets the `answered` flag. -/
theorem double_count_counterexample :
    (runOps [qA, qB] (initQuizState 0, emptyProgress)
        [.click 0, .next, .prev, .click 0]).1.score = 2 ∧
    (runOps [qA, qB] (initQuizState 0, emptyProgress)
        [.click 0, .next, .prev, .click 0]).2.questions_attempted = {"A1"} ∧
    lookupPerf (runOps [qA, qB] (initQuizState 0, emptyProgress)
        [.click 0, .next, .prev, .click 0]).2.performance_by_system "Sys" =
      some ⟨2, 2⟩ ∧
    ¬ ((runOps [qA, qB] (initQuizState 0, emptyProgress)
        [.click 0, .next, .prev, .click 0]).1.score ≤
      (runOps [qA, qB] (initQuizState 0, emptyProgress)
        [.click 0, .next, .prev, .click 0]).2.questions_attempted.card) := by
  decide

/-- Claim C6 (amended): submitting an answer while `answered` is already true is
rejected as a no-op (the option buttons are disabled), and a second click
immediately after a successful one changes nothing — so a question cannot be
double-counted while the session stays on it.  The global no-double-count
property fails, however, because `advance`/`retreat`/`jumpTo` reset the
`answered` flag and a revisited question can then be re-answered and counted
again. -/
theorem submitAnswer_no_double (qz : QuizState) (p : UserProgress) (q : Question)
    (i j : Nat) :
    (qz.answered = true → clickOption qz p q i = (qz, p)) ∧
    (qz.answered = false → i < q.options.length →
      clickOption (clickOption qz p q i).1 (clickOption qz p q i).2 q j =
        clickOption qz p q i) := by
  constructor
  · exact clickOption_answered_noop qz p q i
  · intro h hi
    have h1 : (clickOption qz p q i).1.answered = true := by
      simp [clickOption, h, Nat.not_le.mpr hi]
    rw [clickOption_answered_noop _ _ q j h1]

/-- An already-answered session state, for the C6 witness. -/
def qzAnswered : QuizState := { initQuizState 0 with answered := true }

/-- Witness for the amended C6 on concrete states. -/
theorem submitAnswer_no_double_witness :
    clickOption qzAnswered p0 q1 0 = (qzAnswered, p0) ∧
    clickOption (clickOption (initQuizState 0) p0 q1 0).1
        (clickOption (initQuizState 0) p0 q1 0).2 q1 1 =
      clickOption (initQuizState 0) p0 q1 0 :=
  ⟨(submitAnswer_no_double qzAnswered p0 q1 0 0).1 (by decide),
    (submitAnswer_no_double (initQuizState 0) p0 q1 0 1).2 (by decide) (by decide)⟩

/-! ### Sampling and selection (C4, C5) -/

theorem getD_cons_eraseIdx_perm {α : Type} (l : List α) (i : Nat) (x0 : α)
    (h : i < l.length) : List.Perm (l.getD i x0 :: l.eraseIdx i) l := by
  induction l generalizing i with
  | nil => simp at h
  | cons x xs ih =>
      cases i with
      | zero => simp
      | succ j =>
          have hj : j < xs.length := by simpa using h
          simp only [List.getD_cons_succ, List.eraseIdx_cons_succ]
          exact (List.Perm.swap x _ _).trans ((ih j hj).cons x)

theorem sampleAux_subperm (k : Nat) (ds : List Nat) (l : List Question) :
    List.Subperm (sampleAux k ds l) l := by
  induction k generalizing ds l with
  | zero => exact List.nil_subperm
  | succ k ih =>
      cases l with
      | nil => exact List.nil_subperm
      | cons x xs =>
          simp only [sampleAux]
          have hlen : ds.headD 0 % (x :: xs).length < (x :: xs).length :=
            Nat.mod_lt _ (by simp)
          exact ((List.subperm_cons _).mpr (ih ds.tail _)).trans
            (getD_cons_eraseIdx_perm (x :: xs) _ x hlen).subperm

theorem sampleAux_length (k : Nat) (ds : List Nat) (l : List Question) :
    (sampleAux k ds l).length = min k l.length := by
  induction k generalizing ds l with
  | zero => simp [sampleAux]
  | succ k ih =>
      cases l with
      | nil => simp [sampleAux]
      | cons x xs =>
          simp only [sampleAux, List.length_cons]
          rw [ih]
          have hlen : ds.headD 0 % (x :: xs).length < (x :: xs).length :=
            Nat.mod_lt _ (by simp)
          have h2 := List.length_eraseIdx_add_one hlen
          simp only [List.length_cons] at h2 ⊢
          omega

theorem subperm_map_nodup {α β : Type} (f : α → β) {l₁ l₂ : List α}
    (h : List.Subperm l₁ l₂) (hn : (l₂.map f).Nodup) : (l₁.map f).Nodup := by
  obtain ⟨w, hperm, hsub⟩ := h
  exact ((hperm.map f).nodup_iff).mp (hn.sublist (hsub.map f))

theorem filterBySystems_sublist (sel : List String) (l : List Question) :
    List.Sublist (filterBySystems sel l) l := by
  unfold filterBySystems
  split
  · exact List.Sublist.refl l
  · exact List.filter_sublist l

theorem filterBySubjects_sublist (sel : List String) (l : List Question) :
    List.Sublist (filterBySubjects sel l) l := by
  unfold filterBySubjects
  split
  · exact List.Sublist.refl l
  · exact List.filter_sublist l

theorem applyQuestionFilter_sublist (fopt : String) (prog : UserProgress)
    (l : List Question) : List.Sublist (applyQuestionFilter fopt prog l) l := by
  unfold applyQuestionFilter
  split
  · exact List.filter_sublist l
  split
  · exact List.filter_sublist l
  split
  · exact List.filter_sublist l
  · exact List.Sublist.refl l

theorem filterQuestions_sublist (questions : List Question) (systems subjects : List String)
    (fopt : String) (prog : UserProgress) :
    List.Sublist (filterQuestions questions systems subjects fopt prog) questions :=
  (applyQuestionFilter_sublist fopt prog _).trans
    ((filterBySubjects_sublist subjects _).trans (filterBySystems_sublist systems questions))

/-- Claim C4: for every question bank with unique ids (the §3 data-model
invariant), configuration and progress record, the selection step returns a
list with no duplicate ids and at most `num_questions` elements; when the
filtered count is at most `num_questions` it returns exactly the filtered
list in its filtered order, and when the filtered count exceeds
`num_questions` it returns exactly `num_questions` questions drawn without
replacement from the filtered set (for every possible random draw). -/
theorem selection_spec (draws : List Nat) (questions : List Question) (numQ : Nat)
    (systems subjects : List String) (fopt : String) (prog : UserProgress)
    (hids : (questions.map Question.id).Nodup) :
    ((selectQuestions draws questions numQ systems subjects fopt prog).map Question.id).Nodup ∧
    (selectQuestions draws questions numQ systems subjects fopt prog).length ≤ numQ ∧
    ((filterQuestions questions systems subjects fopt prog).length ≤ numQ →
      selectQuestions draws questions numQ systems subjects fopt prog =
        filterQuestions questions systems subjects fopt prog) ∧
    (numQ < (filterQuestions questions systems subjects fopt prog).length →
      (selectQuestions draws questions numQ systems subjects fopt prog).length = numQ ∧
      List.Subperm (selectQuestions draws questions numQ systems subjects fopt prog)
        (filterQuestions questions systems subjects fopt prog)) := by
  have hFsub := filterQuestions_sublist questions systems subjects fopt prog
  have hFids : ((filterQuestions questions systems subjects fopt prog).map Question.id).Nodup :=
    hids.sublist (hFsub.map Question.id)
  unfold selectQuestions
  by_cases hc : numQ < (filterQuestions questions systems subjects fopt prog).length
  · rw [if_pos hc]
    refine ⟨subperm_map_nodup _ (sampleAux_subperm _ _ _) hFids, ?_, ?_, ?_⟩
    · rw [sampleAux_length]; omega
    · intro hle; omega
    · intro _
      exact ⟨by rw [sampleAux_length]; omega, sampleAux_subperm _ _ _⟩
  · rw [if_neg hc]
    exact ⟨hFids, by omega, fun _ => rfl, fun hgt => absurd hgt hc⟩

/-- Witness for C4: a three-question bank sampled down to one question. -/
theorem selection_spec_witness :
    ((selectQuestions [0] [qA, qB, q1] 1 [] [] "all" emptyProgress).map Question.id).Nodup ∧
    (selectQuestions [0] [qA, qB, q1] 1 [] [] "all" emptyProgress).length = 1 ∧
    List.Subperm (selectQuestions [0] [qA, qB, q1] 1 [] [] "all" emptyProgress)
      (filterQuestions [qA, qB, q1] [] [] "all" emptyProgress) :=
  have h := selection_spec [0] [qA, qB, q1] 1 [] [] "all" emptyProgress (by decide)
  ⟨h.1, (h.2.2.2 (by decide)).1, (h.2.2.2 (by decide)).2⟩

/-- The initial quiz configuration (app.py lines 121-129). -/
def cfg0 : QuizConfig :=
  { num_questions := 10, selected_systems := [], selected_subjects := []
    question_filter := "unused", current_quiz := [], quiz_started := false }

/-- The initial quiz state (app.py lines 131-139). -/
def qz0 : QuizState :=
  { idx := 0, score := 0, answered := false, selected := none
    marked := ∅, quiz_start_time := none }

/-- Claim C5: whenever filtering yields zero candidate questions, selection
returns zero questions and the Start Quiz handler reports
`NoMatchingQuestions` and starts no session: `quiz_config` and `quiz_state`
are returned unchanged. -/
theorem no_matching_no_session (draws : List Nat) (questions : List Question) (numQ : Nat)
    (systems subjects : List String) (fopt : String) (prog : UserProgress)
    (cfg : QuizConfig) (qz : QuizState) (now : Nat)
    (hempty : filterQuestions questions systems subjects fopt prog = []) :
    selectQuestions draws questions numQ systems subjects fopt prog = [] ∧
    startQuiz draws questions numQ systems subjects fopt prog cfg qz now =
      (cfg, qz, StartResult.noMatching) := by
  have hsel : selectQuestions draws questions numQ systems subjects fopt prog = [] := by
    unfold selectQuestions
    rw [hempty]
    simp
  refine ⟨hsel, ?_⟩
  unfold startQuiz
  rw [if_pos hsel]

/-- A user who has attempted every question of the two-question bank. -/
def pAll : UserProgress := { emptyProgress with questions_attempted := {"A1", "B1"} }

/-- Witness for C5: Scenario C — filter `unused` with a user who attempted
all questions. -/
theorem no_matching_witness :
    filterQuestions [qA, qB] [] [] "unused" pAll = [] ∧
    startQuiz [] [qA, qB] 5 [] [] "unused" pAll cfg0 qz0 0 =
      (cfg0, qz0, StartResult.noMatching) :=
  ⟨by decide, (no_matching_no_session [] [qA, qB] 5 [] [] "unused" pAll cfg0 qz0 0
    (by decide)).2⟩

/-! ### Results reporting (C7) -/

/-- Claim C7: the results page reports the final score, `total` equal to the
session length (independent of the index reached), and
`percentage = score / total * 100` with percentage 0 when the session length
is 0; in particular a 10-question session ended with score 2 reports
`score=2, total=10`, percentage 20. -/
theorem results_report (qs : List Question) (qz : QuizState) :
    (showResults qs qz).score = qz.score ∧
    (showResults qs qz).total = qs.length ∧
    (qs.length = 0 → (showResults qs qz).percentage = 0) ∧
    (0 < qs.length →
      (showResults qs qz).percentage = (qz.score : ℚ) / (qs.length : ℚ) * 100) ∧
    (qs.length = 10 → qz.score = 2 →
      (showResults qs qz).total = 10 ∧ (showResults qs qz).percentage = 20) := by
  refine ⟨rfl, rfl, ?_, ?_, ?_⟩
  · intro h; simp [showResults, h]
  · intro h; simp [showResults, h]
  · intro h hs
    refine ⟨by simp [showResults, h], ?_⟩
    simp [showResults, h, hs]
    norm_num

/-- A ten-question session for the C7 witness. -/
def demoQuiz10 : List Question := List.replicate 10 qA

/-- Scenario D's quiz state: ended at index 2 with 2 correct answers. -/
def demoState2 : QuizState :=
  { idx := 2, score := 2, answered := false, selected := none
    marked := ∅, quiz_start_time := some 0 }

/-- Witness for C7 on Scenario D. -/
theorem results_report_witness :
    (showResults demoQuiz10 demoState2).total = 10 ∧
    (showResults demoQuiz10 demoState2).percentage = 20 :=
  (results_report demoQuiz10 demoState2).2.2.2.2 (by decide) (by decide)

/-! ### Persistence round trip (C8, C9, C10) -/

theorem lookupUser_updateUser (users : UsersStore) (u : String) (f : UserRecord → UserRecord) :
    lookupUser (updateUser users u f) u = (lookupUser users u).map f := by
  induction users with
  | nil => rfl
  | cons kv rest ih =>
      obtain ⟨k', v⟩ := kv
      show lookupUser ((if k' = u then (k', f v) else (k', v)) :: updateUser rest u f) u = _
      by_cases hk : k' = u
      · rw [if_pos hk]
        simp only [lookupUser, if_pos hk, Option.map_some']
      · rw [if_neg hk]
        simp only [lookupUser, if_neg hk]
        exact ih

theorem load_after_save (users : UsersStore) (username : String) (p : UserProgress)
    (now : String) (h : (lookupUser users username).isSome) :
    load_user_progress (some (save_user_progress users username p now)) username = p := by
  obtain ⟨r, hr⟩ := Option.isSome_iff_exists.mp h
  have hlook : lookupUser (save_user_progress users username p now) username =
      some { r with progress := serializeProgress p now } := by
    unfold save_user_progress
    rw [if_pos h, lookupUser_updateUser, hr]
    rfl
  simp only [load_user_progress, load_users, hlook]
  cases p
  simp [serializeProgress, Finset.sort_toFinset]

/-- Claim C8: both mid-session exits — the Home button and the End Quiz
button — checkpoint the logged-in user's in-memory progress to the durable
store before the session is left: reloading the user's progress from the
store returned by either handler gives back exactly the in-memory progress,
and the Home exit clears `quiz_started`. -/
theorem checkpoint_on_exit (users : UsersStore) (username : String) (p : UserProgress)
    (now : String) (cfg : QuizConfig) (qs : List Question) (qz : QuizState)
    (h : (lookupUser users username).isSome) :
    load_user_progress (some (homeClick users username p now cfg).1) username = p ∧
    (homeClick users username p now cfg).2.quiz_started = false ∧
    load_user_progress (some (endQuizClick users username p now qs qz).1) username = p :=
  ⟨load_after_save users username p now h, rfl, load_after_save users username p now h⟩

/-- A one-user store for persistence witnesses. -/
def storeU : UsersStore :=
  [("alice", { password_hash := "ph", created_at := "t0", progress := emptyStoredProgress })]

/-- Witness for C8 on a concrete store. -/
theorem checkpoint_on_exit_witness :
    load_user_progress (some (homeClick storeU "alice" p0 "t1" cfg0).1) "alice" = p0 ∧
    (homeClick storeU "alice" p0 "t1" cfg0).2.quiz_started = false ∧
    load_user_progress (some (endQuizClick storeU "alice" p0 "t1" [] qz0).1) "alice" = p0 :=
  checkpoint_on_exit storeU "alice" p0 "t1" cfg0 [] qz0 (by decide)

/-- Claim C9: when the users store is missing, unreadable or not valid JSON
(all modelled as `none`), `load_users` returns the empty mapping and
`load_user_progress` returns, for every username, the default progress
record with all four id sets empty and both performance mappings empty —
reads never fail. -/
theorem load_failure_defaults :
    load_users none = [] ∧
    ∀ username : String,
      load_user_progress none username = emptyProgress ∧
      (load_user_progress none username).questions_attempted = ∅ ∧
      (load_user_progress none username).correct_questions = ∅ ∧
      (load_user_progress none username).incorrect_questions = ∅ ∧
      (load_user_progress none username).marked_questions = ∅ ∧
      (load_user_progress none username).performance_by_system = [] ∧
      (load_user_progress none username).performance_by_subject = [] :=
  ⟨rfl, fun _ => ⟨rfl, rfl, rfl, rfl, rfl, rfl, rfl⟩⟩

/-- Claim C10: `create_user` on an already-present username fails with
"Username already exists" and performs no write — the returned store is the
input store, so that user's record (password hash and progress included) is
unchanged. -/
theorem create_user_existing (hash : String → String) (now : String) (users : UsersStore)
    (username password : String) (h : (lookupUser users username).isSome) :
    create_user hash now users username password =
      (users, false, "Username already exists") ∧
    lookupUser (create_user hash now users username password).1 username =
      lookupUser users username := by
  unfold create_user
  rw [if_pos h]
  exact ⟨rfl, rfl⟩

/-- Witness for C10 on a concrete store. -/
theorem create_user_existing_witness :
    create_user (fun s => s) "t1" storeU "alice" "pw" =
      (storeU, false, "Username already exists") ∧
    lookupUser (create_user (fun s => s) "t1" storeU "alice" "pw").1 "alice" =
      lookupUser storeU "alice" :=
  create_user_existing (fun s => s) "t1" storeU "alice" "pw" (by decide)

end YohadMD
